import Mathlib

/-!
Verification development for the appointment-checking bot
(files `reacher.py`, `main.py`, `bot_users.py`, `database.py`,
`error_logger.py`, `backend.py`).

The Python sources are shallowly embedded as executable Lean definitions:
pure logic (date parsing, slot matching, message construction) becomes
Lean functions; the scheduler's job queue becomes an explicit state with a
step relation; fallible Python calls become `Option`/`Except` values.
All definitions follow the source; where a definition instead follows the
specification's wording (for comparison), its doc comment says so.
-/

namespace TelegramBot

/-! ## Calendar dates

`reacher.extract_dates` manipulates `datetime.date` values obtained by
`datetime.strptime`.  We embed a date as day/month/year naturals with the
validity rule enforced by the `datetime` constructor. -/

structure SDate where
  day : Nat
  month : Nat
  year : Nat
deriving DecidableEq, Repr

def isLeap (y : Nat) : Bool :=
  (y % 4 = 0 && y % 100 != 0) || y % 400 = 0

def daysInMonth (y m : Nat) : Nat :=
  match m with
  | 1 => 31
  | 2 => if isLeap y then 29 else 28
  | 3 => 31
  | 4 => 30
  | 5 => 31
  | 6 => 30
  | 7 => 31
  | 8 => 31
  | 9 => 30
  | 10 => 31
  | 11 => 30
  | 12 => 31
  | _ => 0

/-- Validity check of the `datetime` constructor (year ≥ 1, month 1..12,
day within the month). -/
def mkDate (d m y : Nat) : Option SDate :=
  if 1 ≤ y && 1 ≤ m && m ≤ 12 && 1 ≤ d && d ≤ daysInMonth y m then
    some ⟨d, m, y⟩
  else
    none

/-- Days before month `m` in year `y`. -/
def daysBeforeMonth (y m : Nat) : Nat :=
  (List.range (m - 1)).foldl (fun a i => a + daysInMonth y (i + 1)) 0

/-- Proleptic-Gregorian day number, as computed by
`datetime.date.toordinal`. -/
def rataDie (d : SDate) : Nat :=
  let y := d.year - 1
  365 * y + y / 4 - y / 100 + y / 400 + daysBeforeMonth d.year d.month + d.day

/-- `abs((a - b).days)` of `datetime.date` subtraction. -/
def dateDist (a b : SDate) : Nat :=
  Int.natAbs ((rataDie a : Int) - (rataDie b : Int))

/-! ## strptime against the format list of `extract_dates`

`reacher.py:605-611` tries, in order:
`"%d de %B de %Y"`, `"%d/%m/%Y"`, `"%d-%m-%Y"`, `"%Y-%m-%d"`, `"%d %B %Y"`;
the first format that parses wins (`reacher.py:613-625`).
`strptime` requires the whole string to match; `%d`/`%m` accept one or two
digits within range, `%Y` exactly four digits, and `%B` a full English
month name (C locale), case-insensitively. -/

/-- Split a character list at every occurrence of the separator character
(the behaviour of matching a single-character literal in a `strptime`
format, and of `str.split`). -/
def splitChar (sepc : Char) : List Char → List (List Char)
  | [] => [[]]
  | c :: rest =>
    if c = sepc then
      [] :: splitChar sepc rest
    else
      match splitChar sepc rest with
      | g :: gs => (c :: g) :: gs
      | [] => [[c]]

/-- Numeric value of an all-digit, non-empty character group. -/
def digitsVal (cs : List Char) : Option Nat :=
  if cs ≠ [] && cs.all Char.isDigit then
    some (cs.foldl (fun a c => a * 10 + (c.toNat - 48)) 0)
  else
    none

/-- A `%d`/`%m`-style field: at most `maxLen` digits, value in `lo..hi`. -/
def fieldNum (cs : List Char) (maxLen lo hi : Nat) : Option Nat :=
  if cs.length ≤ maxLen then
    (digitsVal cs).bind (fun v => if lo ≤ v && v ≤ hi then some v else none)
  else
    none

/-- A `%Y` field: exactly four digits, year ≥ 1. -/
def yearNum (cs : List Char) : Option Nat :=
  if cs.length = 4 then
    (digitsVal cs).bind (fun v => if 1 ≤ v then some v else none)
  else
    none

/-- `%B`: full month name of the C locale, case-insensitive. -/
def monthFromName (cs : List Char) : Option Nat :=
  let s := String.mk (cs.map Char.toLower)
  if s = ("january") then some 1
  else if s = ("february") then some 2
  else if s = ("march") then some 3
  else if s = ("april") then some 4
  else if s = ("may") then some 5
  else if s = ("june") then some 6
  else if s = ("july") then some 7
  else if s = ("august") then some 8
  else if s = ("september") then some 9
  else if s = ("october") then some 10
  else if s = ("november") then some 11
  else if s = ("december") then some 12
  else none

/-- `strptime(s, "%d de %B de %Y")`. -/
def strptimeDeB (s : String) : Option SDate :=
  match splitChar ' ' s.data with
  | [d, de1, b, de2, y] =>
    if de1 = ['d', 'e'] && de2 = ['d', 'e'] then do
      let dv ← fieldNum d 2 1 31
      let mv ← monthFromName b
      let yv ← yearNum y
      mkDate dv mv yv
    else none
  | _ => none

/-- `strptime(s, "%d/%m/%Y")`. -/
def strptimeSlash (s : String) : Option SDate :=
  match splitChar '/' s.data with
  | [d, m, y] => do
    let dv ← fieldNum d 2 1 31
    let mv ← fieldNum m 2 1 12
    let yv ← yearNum y
    mkDate dv mv yv
  | _ => none

/-- `strptime(s, "%d-%m-%Y")`. -/
def strptimeDash (s : String) : Option SDate :=
  match splitChar '-' s.data with
  | [d, m, y] => do
    let dv ← fieldNum d 2 1 31
    let mv ← fieldNum m 2 1 12
    let yv ← yearNum y
    mkDate dv mv yv
  | _ => none

/-- `strptime(s, "%Y-%m-%d")`. -/
def strptimeIso (s : String) : Option SDate :=
  match splitChar '-' s.data with
  | [y, m, d] => do
    let yv ← yearNum y
    let mv ← fieldNum m 2 1 12
    let dv ← fieldNum d 2 1 31
    mkDate dv mv yv
  | _ => none

/-- `strptime(s, "%d %B %Y")`. -/
def strptimeSpaceB (s : String) : Option SDate :=
  match splitChar ' ' s.data with
  | [d, b, y] => do
    let dv ← fieldNum d 2 1 31
    let mv ← monthFromName b
    let yv ← yearNum y
    mkDate dv mv yv
  | _ => none

/-- First-successful-format parse of one raw slot label
(`reacher.py:613-625`: the inner format loop breaks at the first format
that parses). -/
def parseLabel (s : String) : Option SDate :=
  strptimeDeB s <|> strptimeSlash s <|> strptimeDash s <|> strptimeIso s <|>
    strptimeSpaceB s

/-! ## Slot matching against the preferred date (`reacher.py:596-631`)

State of the loop: `closest_date`/`min_diff`, embedded as
`Option (String × Nat)` (starting at `None`/infinity). -/

/-- One `diff < min_diff` update of the loop (`reacher.py:619-622`). -/
def closestUpdate (pref : SDate) (acc : Option (String × Nat)) (lbl : String)
    (dt : SDate) : Option (String × Nat) :=
  let diff := dateDist dt pref
  match acc with
  | none => some (lbl, diff)
  | some (c, m) => if diff < m then some (lbl, diff) else some (c, m)

/-- The `for date_str in dates` loop (`reacher.py:604-628`): an exact match
returns `["SELECTED: " ++ lbl]` immediately; otherwise the closest parseable
label is tracked, and at the end, if one exists, the result is
`["CLOSEST AVAILABLE: " ++ c]` followed by every label different from `c`;
with no parseable label the loop falls through and `dates` is returned
unchanged (`reacher.py:633-648`). -/
def matchGo (dates : List String) (pref : SDate) :
    List String → Option (String × Nat) → List String
  | [], acc =>
    match acc with
    | some (c, _) => (("CLOSEST AVAILABLE: ") ++ c) :: dates.filter (fun d => d ≠ c)
    | none => dates
  | lbl :: rest, acc =>
    match parseLabel lbl with
    | none => matchGo dates pref rest acc
    | some dt =>
      if dt = pref then [("SELECTED: ") ++ lbl]
      else matchGo dates pref rest (closestUpdate pref acc lbl dt)

/-- The preferred-date section of `extract_dates` (`reacher.py:596-631`),
applied to a non-empty collected label list: the preferred date is parsed
with `"%d/%m/%Y"` (`reacher.py:598`); if absent or unparseable the labels
are returned unchanged. -/
def selectDates (dates : List String) (preferred : Option String) : List String :=
  match preferred with
  | none => dates
  | some p =>
    match strptimeSlash p with
    | none => dates
    | some pref => matchGo dates pref dates none

/-- The accumulator of `matchGo` in isolation: what `closest_date`/`min_diff`
hold after scanning a list of labels (no exact match assumed). -/
def scanAcc (pref : SDate) (acc : Option (String × Nat)) :
    List String → Option (String × Nat)
  | [] => acc
  | lbl :: rest =>
    match parseLabel lbl with
    | none => scanAcc pref acc rest
    | some dt => scanAcc pref (closestUpdate pref acc lbl dt) rest

/-- Label together with its day-distance to the preferred date, when the
label parses. -/
def distPair (pref : SDate) (lbl : String) : Option (String × Nat) :=
  (parseLabel lbl).map (fun dt => (lbl, dateDist dt pref))

/-- Keep the strictly closer of two candidates (ties keep the earlier). -/
def specStep (best y : String × Nat) : String × Nat :=
  if y.2 < best.2 then y else best

/-- Modelled from the spec's words (§4.3, SlotMatcher), for comparison with
the code: among the parseable labels, the one with minimum absolute
day-distance to the preferred date, ties broken by first-encountered order
in the input list. -/
def specClosestLabel (dates : List String) (pref : SDate) : Option String :=
  match dates.filterMap (distPair pref) with
  | [] => none
  | x :: xs => some ((xs.foldl specStep x).1)

/-! ## Page state seen by `extract_dates` (`reacher.py:501-662`) -/

/-- Substring containment, the Python `in` test on strings. -/
def strContains (s pat : String) : Bool :=
  decide (pat.data <:+: s.data)

/-- `str.startswith`. -/
def strStartsWith (s pre : String) : Bool :=
  pre.data.isPrefixOf s.data

/-- The page as queried by `extract_dates`: the raw HTML content
(`page.content()`), the visible body text (`document.body.innerText`), the
labels collected by the availability selectors (`reacher.py:517-540`),
whether a calendar widget is present (`reacher.py:543-549`), and the labels
the calendar-day queries produce (`reacher.py:552-574`). -/
structure PageState where
  content : String
  bodyText : String
  selectorDates : List String
  calendarPresent : Bool
  calendarDates : List String
deriving Repr

/-- The five exact no-availability phrases checked against `page.content()`
(`reacher.py:503-509`). -/
def noDatesContent : List String :=
  [("No hay horas disponibles"), ("Inténtelo de nuevo dentro de unos días"),
   ("No hay horas"), ("No slots available"), ("Try again later")]

/-- `reacher.py:511-515`: some no-availability phrase occurs in the page
content. -/
def contentSignal (st : PageState) : Bool :=
  noDatesContent.any (fun t => strContains st.content t)

/-- `reacher.py:576-589`: the full-page text heuristic over the lowercased
body text, evaluated only when no calendar is present. -/
def textHeuristic (st : PageState) : Bool :=
  let t := String.mk (st.bodyText.data.map Char.toLower)
  strContains t ("no hay horas") || strContains t ("inténtelo de nuevo") ||
    strContains t ("no hay citas disponibles") ||
    strContains t ("no appointments available")

/-- The labels `extract_dates` ends up holding in `dates`: the selector
query results, else the calendar-day results when a calendar is present,
else nothing. -/
def collectedDates (st : PageState) : List String :=
  if st.selectorDates.isEmpty then
    if st.calendarPresent then st.calendarDates else []
  else st.selectorDates

/-- `extract_dates` (`reacher.py:501-662`): return `[]` when a
no-availability phrase occurs in the content; otherwise collect labels via
the selectors, falling back to the calendar queries; with no labels and no
calendar, return `[]` when the text heuristic fires — and also when it does
not (`reacher.py:650-657` returns `[]` unconditionally at the end).  With
labels in hand, run the preferred-date matching and return its (non-empty)
result. -/
def extract_dates (st : PageState) (preferred : Option String) : List String :=
  if contentSignal st then []
  else if st.selectorDates.isEmpty then
    if st.calendarPresent then
      if st.calendarDates.isEmpty then [] else selectDates st.calendarDates preferred
    else if textHeuristic st then []
    else []
  else selectDates st.selectorDates preferred

/-! ## The menores wizard flow (`reacher.py:345-498`)

One attempt of `handle_menores_service` after navigation: the outcome
depends on which buttons/selectors resolve.  `None` (an inconclusive,
attempt-level failure) arises only when the Continue button is missing
(`reacher.py:375-377`) or when the requested service option cannot be
found and the page content lacks the no-availability phrases
(`reacher.py:470-484`). -/

/-- The two phrases `handle_menores_service` re-checks in raw content at
its fallback points (`reacher.py:401`, `429`, `474`). -/
def contentNoHoras (content : String) : Bool :=
  strContains content ("No hay horas disponibles") ||
    strContains content ("Inténtelo de nuevo dentro de unos días")

/-- Flags of one attempt of the menores flow, in source order. -/
structure MenoresFlow where
  /-- `#bktContinue` resolved (`reacher.py:370`). -/
  continueButton : Bool
  /-- some `no_hours_selectors` entry resolved right after Continue
  (`reacher.py:379-398`), or at the later re-checks (`reacher.py:420-426`). -/
  noHoursSelectorHit : Bool
  /-- the requested service option was found and clicked
  (`reacher.py:439-468`). -/
  optionFound : Bool
  /-- some `no_hours_selectors` entry resolved after selecting the service
  (`reacher.py:488-495`). -/
  noHoursAfterOption : Bool
  /-- page state handed to `extract_dates` (`reacher.py:497`). -/
  page : PageState
deriving Repr

/-- `handle_menores_service` (`reacher.py:345-498`), from the Continue
button on; `none` is the attempt-level inconclusive result. -/
def handle_menores_service (f : MenoresFlow) (preferred : Option String) :
    Option (List String) :=
  if f.continueButton = false then none
  else if f.noHoursSelectorHit then some []
  else if contentNoHoras f.page.content then some []
  else if f.optionFound = false then
    if contentNoHoras f.page.content then some [] else none
  else if f.noHoursAfterOption then some []
  else some (extract_dates f.page preferred)

/-! ## Tor identity provider (`reacher.py:138-162`) -/

structure Proxy where
  server : String
deriving DecidableEq, Repr

/-- The proxy dictionary `TorProxyManager.get_proxy` returns
(`reacher.py:157-159`). -/
def torProxy : Proxy := ⟨("socks5://127.0.0.1:9050")⟩

/-- `TorProxyManager.get_proxy` (`reacher.py:149-159`): when Tor is ready
(or a lazy initialisation succeeds) a fresh identity is requested and the
Tor proxy returned; `none` only when initialisation fails. -/
def get_proxy (tor_ready initOk : Bool) : Option Proxy :=
  if tor_ready then some torProxy
  else if initOk then some torProxy
  else none

/-- The proxy used by each of the `maxAttempts` attempts of
`_check_appointments_impl` (`reacher.py:186-207`): after a successful
`proxy_manager.initialize()` the manager stays ready, and every iteration
of the attempt loop calls `get_proxy` on it (`reacher.py:190-191`, the
`Always use Tor proxy` comment); with a failed initialisation the session
aborts before any attempt. -/
def attemptProxies (initOk : Bool) (maxAttempts : Nat) : List (Option Proxy) :=
  if initOk then List.replicate maxAttempts (get_proxy true true) else []

/-! ## The bounded attempt loop (`reacher.py:165-290`) -/

/-- What one iteration of the attempt loop encounters. -/
inductive AttemptEvent where
  /-- `get_proxy` returned nothing; the attempt is skipped
  (`reacher.py:192-195`). -/
  | noProxy
  /-- a playwright `TimeoutError` was caught (`reacher.py:260-261`). -/
  | timeout
  /-- some other exception was caught (`reacher.py:262-264`). -/
  | navError
  /-- the service handler ran and returned `r`; a `some` is returned from
  the session at once (`reacher.py:249-256`), a `none` falls through to the
  next attempt (`reacher.py:258`). -/
  | navResult (r : Option (List String))
deriving DecidableEq, Repr

/-- The `while current_attempt < max_attempts` loop (`reacher.py:189-284`),
over the per-attempt events; exhaustion yields `None`
(`reacher.py:289-290`). -/
def runAttempts : List AttemptEvent → Option (List String)
  | [] => none
  | (AttemptEvent.navResult (some r)) :: _ => some r
  | _ :: rest => runAttempts rest

/-- `_check_appointments_impl` (`reacher.py:177-290`): aborts with `None`
when Tor cannot be initialised, otherwise runs the attempt loop. -/
def check_appointments_impl (torInit : Bool) (events : List AttemptEvent) :
    Option (List String) :=
  if torInit then runAttempts events else none

/-- `check_appointments_async` (`reacher.py:165-174`): a global timeout or
escaped exception yields `None`. -/
def check_appointments_async (globalTimeout globalError torInit : Bool)
    (events : List AttemptEvent) : Option (List String) :=
  if globalTimeout || globalError then none
  else check_appointments_impl torInit events

/-! ## The recurring poller body (`main.py:497-683`,
`check_dates_continuously`) -/

/-- A structured report `error_logger.log_error` delivers to the
monitoring bot (`error_logger.py:13-69`): user, job, error text and
call-site context, never shown to the end user. -/
structure Report where
  user : Nat
  job : String
  error : String
  context : String
deriving DecidableEq, Repr

/-- What one tick of `check_dates_continuously` encounters (message texts
are abridged to their discriminating prefix). -/
inductive TickEvent where
  /-- `is_job_ready_to_search` returned false (`main.py:508-512`). -/
  | notActive
  /-- no `service_type` row found (`main.py:523-526`). -/
  | noServiceRow
  /-- the 60s `asyncio.wait_for` around the check timed out
  (`main.py:581-583`). -/
  | outerTimeout
  /-- `check_appointments_async` completed with `r` (`main.py:577-580`). -/
  | outcome (r : Option (List String))
  /-- an exception escaped the tick body (`main.py:656-683`). -/
  | raised (e : String)
deriving DecidableEq, Repr

/-- Effects of one tick. -/
structure TickResult where
  /-- `context.job.schedule_removal()` was called. -/
  removePoller : Bool
  /-- `remove_user_job` was called. -/
  deleteJob : Bool
  userMessages : List String
  monitorReports : List Report
deriving DecidableEq, Repr

/-- The set-preferred-date prompt (`main.py:552-556`), sent when the job
has no preferred date and has not been prompted yet. -/
def datePromptMessage (job : String) : String :=
  ("Please set your preferred appointment date for ") ++ job ++ (":")

/-- The pair of found-slots notifications (`main.py:585-632`), followed by
the menu re-prompt (`main.py:648-652`); the detailed message discriminates
on `SELECTED` / `CLOSEST AVAILABLE` markers in the labels
(`main.py:602-629`). -/
def foundMessages (job : String) (ds : List String) : List String :=
  [("Found appointments!"),
   if ds.any (fun d => strContains d ("SELECTED")) then
     ("APPOINTMENT BOOKED for ") ++ job
   else if ds.any (fun d => strContains d ("CLOSEST AVAILABLE")) then
     ("CLOSEST DATE FOUND for ") ++ job
   else
     ("AVAILABLE DATES FOUND for ") ++ job,
   ("Please choose an option:")]

/-- One tick of `check_dates_continuously` (`main.py:497-683`).
`needDatePrompt` stands for `preferred_date` being absent with
`preferred_date_asked` unset (`main.py:534-559`). -/
def check_dates_continuously (uid : Nat) (job : String) (needDatePrompt : Bool)
    (ev : TickEvent) : TickResult :=
  let prompt := if needDatePrompt then [datePromptMessage job] else []
  match ev with
  | TickEvent.notActive => ⟨true, false, [], []⟩
  | TickEvent.noServiceRow => ⟨true, false, [], []⟩
  | TickEvent.outerTimeout => ⟨false, false, prompt, []⟩
  | TickEvent.outcome r =>
    match r with
    | some ds =>
      if ds.isEmpty then ⟨false, false, prompt, []⟩
      else ⟨true, true, prompt ++ foundMessages job ds, []⟩
    | none => ⟨false, false, prompt, []⟩
  | TickEvent.raised e =>
    ⟨false, false, prompt, [⟨uid, job, e, ("check_dates_continuously")⟩]⟩

/-! ## The interactive single-appointment check
(`main.py:887-935`, inside `handle_check_appointments`) -/

/-- What the single-appointment branch encounters. -/
inductive SingleCheckEvent where
  /-- the service-type row is missing (`main.py:901-905`). -/
  | jobMissing
  /-- `check_appointments_async(..., max_attempts=1)` completed with `r`
  (`main.py:921-929`). -/
  | completed (r : Option (List String))
  /-- the 15s `asyncio.wait_for` timed out (`main.py:930-931`). -/
  | timedOut
  /-- an exception `e` was caught by the inner handler
  (`main.py:932-933`). -/
  | raised (e : String)
deriving DecidableEq, Repr

/-- `", ".join(dates)`. -/
def joinDates : List String → String
  | [] => ("")
  | [d] => d
  | d :: rest => d ++ (", ") ++ joinDates rest

/-- Messages the user sees from the single-appointment check branch
(`main.py:889-933`). -/
def handle_check_single (job : String) (ev : SingleCheckEvent) : List String :=
  let m0 := ("Checking appointment for ") ++ job ++ ("...")
  match ev with
  | SingleCheckEvent.jobMissing => [m0, ("Job ") ++ job ++ (" not found.")]
  | SingleCheckEvent.completed r =>
    match r with
    | some ds =>
      if ds.isEmpty then [m0, ("No available dates found for ") ++ job ++ (".")]
      else [m0, ("Available dates found for ") ++ job ++ (": ") ++ joinDates ds]
    | none => [m0, ("No available dates found for ") ++ job ++ (".")]
  | SingleCheckEvent.timedOut => [m0, ("Check timed out for ") ++ job ++ (".")]
  | SingleCheckEvent.raised e => [m0, ("Error checking ") ++ job ++ (": ") ++ e]

/-- The generic message the outer exception handler of
`handle_check_appointments` sends to the user (`main.py:959`). -/
def handle_check_outer_user : String :=
  ("I encountered an issue while checking appointments. Please try again later.")

/-- The monitoring report the outer exception handler files
(`main.py:940-956`). -/
def handle_check_outer_reports (uid : Nat) (job e : String) : List Report :=
  [⟨uid, job, e, ("handle_check_appointments")⟩]

/-! ## The scheduler's job queue (`main.py`)

`telegram.ext.JobQueue` keyed by name strings
`f"check_dates_{user_id}_{job_name}"`; `run_repeating` registers
unconditionally, `get_jobs_by_name` filters by name,
`schedule_removal` deregisters. -/

/-- `f"check_dates_{user_id}_{job_name}"` (`main.py:103`, `423`, `1016`,
`1037`). -/
def pollerName (uid : Nat) (job : String) : String :=
  ("check_dates_") ++ toString uid ++ ("_") ++ job

/-- `f"check_dates_{user_id}_"`, the prefix `pause_user_searches` matches
(`main.py:1102`). -/
def pausePrefix (uid : Nat) : String :=
  ("check_dates_") ++ toString uid ++ ("_")

/-- Scheduler state: the registered poller names (a multiset — the queue
happily holds duplicates), the persisted active jobs, and the paused-poll
list held by an in-flight pause/resume pair. -/
structure Sched where
  queue : List String
  db : List (Nat × String)
  held : List String
deriving DecidableEq, Repr

/-- One reconciliation pass of `check_for_new_jobs` (`main.py:1027-1097`):
for each persisted active job, skip when a poller with its name exists,
otherwise register one. -/
def reconcileStep (s : Sched) : Sched :=
  { s with
    queue := s.db.foldl
      (fun q j =>
        let n := pollerName j.1 j.2
        if n ∈ q then q else q ++ [n])
      s.queue }

/-- `restart_active_jobs` (`main.py:981-1024`): register a poller for each
persisted active job, unconditionally. -/
def startupStep (s : Sched) : Sched :=
  { s with queue := s.db.foldl (fun q j => q ++ [pollerName j.1 j.2]) s.queue }

/-- The scheduling block of `start_search` (`main.py:103-120`): remove any
existing pollers with the name, then register. -/
def directStartStep (uid : Nat) (job : String) (s : Sched) : Sched :=
  let n := pollerName uid job
  { s with queue := (s.queue.filter (fun m => m ≠ n)) ++ [n] }

/-- `pause_user_searches` (`main.py:1100-1123`): deregister every poller
whose name starts with the owner's prefix and hold them for resuming. -/
def pauseStep (uid : Nat) (s : Sched) : Sched :=
  { queue := s.queue.filter (fun n => ¬ strStartsWith n (pausePrefix uid)),
    db := s.db,
    held := s.queue.filter (fun n => strStartsWith n (pausePrefix uid)) }

/-- `resume_user_searches` (`main.py:1126-1144`): re-register every held
poller, unconditionally. -/
def resumeStep (s : Sched) : Sched :=
  { queue := s.queue ++ s.held, db := s.db, held := [] }

/-- `handle_cancel_job` for a single job (`main.py:402-494`): pause the
owner's pollers (into a local list), delete the job, deregister any poller
with its name, drop the cancelled name from the local paused list, then
resume it.  A pause held by another in-flight handler (`s.held`) is not
touched. -/
def handleCancelSingle (uid : Nat) (job : String) (s : Sched) : Sched :=
  let myHeld := s.queue.filter (fun n => strStartsWith n (pausePrefix uid))
  let q1 := s.queue.filter (fun n => ¬ strStartsWith n (pausePrefix uid))
  let db1 := s.db.filter (fun j => j ≠ (uid, job))
  let n := pollerName uid job
  let q2 := q1.filter (fun m => m ≠ n)
  let myHeld1 := myHeld.filter (fun m => m ≠ n)
  { queue := q2 ++ myHeld1, db := db1, held := s.held }

/-- Interleavable scheduler steps: the reconciliation tick, startup
recovery, a direct start, a pause (one outstanding at a time), the matching
resume, and a full single-job cancellation by another handler. -/
inductive SchedStep : Sched → Sched → Prop where
  | reconcile (s : Sched) : SchedStep s (reconcileStep s)
  | startup (s : Sched) : SchedStep s (startupStep s)
  | directStart (uid : Nat) (job : String) (s : Sched) :
      SchedStep s (directStartStep uid job s)
  | pauseOwner (uid : Nat) (s : Sched) : s.held = [] →
      SchedStep s (pauseStep uid s)
  | resumeHeld (s : Sched) : SchedStep s (resumeStep s)
  | cancelJob (uid : Nat) (job : String) (s : Sched) :
      SchedStep s (handleCancelSingle uid job s)

/-- Reachability of scheduler states. -/
def SchedReachable (s0 s : Sched) : Prop :=
  Relation.ReflTransGen SchedStep s0 s

/-! ## Jobs table and job creation (`bot_users.py`, `main.py:318-390`) -/

inductive JobStatus where
  | pending_form
  | active
deriving DecidableEq, Repr

structure JobRow where
  user : Nat
  name : String
  status : JobStatus
deriving DecidableEq, Repr

/-- `get_user_jobs` (`bot_users.py:179-190`): all job names of a user,
any status. -/
def get_user_jobs (db : List JobRow) (uid : Nat) : List String :=
  (db.filter (fun r => r.user = uid)).map (fun r => r.name)

/-- `add_user_job` as defined at `bot_users.py:90-105`: two parameters
`(user_id, job_name)`; inserts with status `pending_form`; the
`UNIQUE(user_id, job_name)` constraint (`database.py:67`) turns a duplicate
insert into a caught `SQLAlchemyError` and a `False` return with the table
unchanged. -/
def add_user_job (db : List JobRow) (uid : Nat) (name : String) :
    List JobRow × Bool :=
  if db.any (fun r => r.user = uid && r.name = name) then (db, false)
  else (db ++ [⟨uid, name, JobStatus.pending_form⟩], true)

/-- `save_form_submission` (`bot_users.py:38-87`): flips the status of the
`(user_id, job_name)` rows to `active`. -/
def save_form_submission (db : List JobRow) (uid : Nat) (name : String) :
    List JobRow :=
  db.map (fun r =>
    if r.user = uid && r.name = name then { r with status := JobStatus.active }
    else r)

/-- Number of parameters of `bot_users.add_user_job` (`bot_users.py:90`). -/
def add_user_job_paramCount : Nat := 2

/-- Number of positional arguments `handle_option` passes to it
(`main.py:350`: `add_user_job(user_id, job_name, service_type)`). -/
def handle_option_addCall_argCount : Nat := 3

/-- Python-call semantics of the `add_user_job` invocation at
`main.py:350`: a positional-argument count different from the parameter
count raises `TypeError` before the function body runs. -/
inductive PyError where
  | typeError
deriving DecidableEq, Repr

def callAddUserJob (db : List JobRow) (uid : Nat) (name : String) :
    Except PyError (List JobRow × Bool) :=
  if handle_option_addCall_argCount = add_user_job_paramCount then
    Except.ok (add_user_job db uid name)
  else
    Except.error PyError.typeError

inductive CreateOutcome where
  /-- the job was persisted and the form link sent (`main.py:356-390`). -/
  | created
  /-- case-insensitive duplicate name (`main.py:336-342`). -/
  | rejectedDuplicate
  /-- 15-search cap reached (`main.py:344-347`). -/
  | rejectedCap
  /-- `add_user_job` returned `False` (`main.py:351-354`). -/
  | failedMessage
  /-- an exception escaped the handler. -/
  | crashed (e : PyError)
deriving DecidableEq, Repr

/-- `any(job.lower() == job_name.lower() for job in user_jobs)`
(`main.py:338`). -/
def dupName (jobs : List String) (name : String) : Bool :=
  jobs.any (fun j =>
    String.mk (j.data.map Char.toLower) == String.mk (name.data.map Char.toLower))

/-- The job-creation tail of `handle_option` (`main.py:318-390`): the
duplicate-name check (`main.py:336-342`), then the 15-job cap
(`main.py:344-347`), then the `add_user_job` call (`main.py:350`). -/
def handle_option_create (db : List JobRow) (uid : Nat) (jobName : String) :
    CreateOutcome × List JobRow :=
  let jobs := get_user_jobs db uid
  if dupName jobs jobName then
    (CreateOutcome.rejectedDuplicate, db)
  else if 15 ≤ jobs.length then
    (CreateOutcome.rejectedCap, db)
  else
    match callAddUserJob db uid jobName with
    | Except.error e => (CreateOutcome.crashed e, db)
    | Except.ok (db2, true) => (CreateOutcome.created, db2)
    | Except.ok (_, false) => (CreateOutcome.failedMessage, db)

/-! ## Helper lemmas on the slot matcher -/

theorem selected_ne_closest (l c : String) :
    ("SELECTED: ") ++ l ≠ ("CLOSEST AVAILABLE: ") ++ c := by
  intro h
  have h2 := congrArg String.data h
  rw [String.data_append, String.data_append] at h2
  have hS : ("SELECTED: ").data = 'S' :: ("ELECTED: ").data := rfl
  have hC : ("CLOSEST AVAILABLE: ").data = 'C' :: ("LOSEST AVAILABLE: ").data := rfl
  rw [hS, hC, List.cons_append, List.cons_append] at h2
  injection h2 with h3 _
  exact absurd h3 (by decide)

/-- An exact match anywhere in the scanned labels makes the loop return a
singleton `SELECTED` tag, for any accumulator value. -/
theorem matchGo_selected (dates : List String) (pref : SDate) :
    ∀ ds acc, (∃ l ∈ ds, parseLabel l = some pref) →
      ∃ l, parseLabel l = some pref ∧
        matchGo dates pref ds acc = [("SELECTED: ") ++ l] := by
  intro ds
  induction ds with
  | nil =>
    intro acc h
    obtain ⟨l, hl, _⟩ := h
    exact absurd hl (List.not_mem_nil l)
  | cons d rest ih =>
    intro acc h
    by_cases hd : parseLabel d = some pref
    · refine ⟨d, hd, ?_⟩
      simp [matchGo, hd]
    · obtain ⟨l, hl, hlp⟩ := h
      have hlr : l ∈ rest := by
        rcases List.mem_cons.mp hl with h1 | h1
        · exact absurd (h1 ▸ hlp) hd
        · exact h1
      cases hp : parseLabel d with
      | none =>
        have h3 := ih acc ⟨l, hlr, hlp⟩
        simpa [matchGo, hp] using h3
      | some dt =>
        have hne : dt ≠ pref := by
          intro e
          exact hd (by rw [hp, e])
        have h3 := ih (closestUpdate pref acc d dt) ⟨l, hlr, hlp⟩
        simpa [matchGo, hp, hne] using h3

/-- The loop accumulator after scanning equals a fold of `specStep` over
the parseable labels. -/
theorem scanAcc_some (pref : SDate) :
    ∀ (ds : List String) (x : String × Nat),
      scanAcc pref (some x) ds =
        some ((ds.filterMap (distPair pref)).foldl specStep x) := by
  intro ds
  induction ds with
  | nil => intro x; rfl
  | cons l rest ih =>
    intro x
    cases hp : parseLabel l with
    | none => simp [scanAcc, hp, List.filterMap_cons, distPair, ih]
    | some dt =>
      have hstep : closestUpdate pref (some x) l dt =
          some (specStep x (l, dateDist dt pref)) := by
        cases x with
        | mk c m =>
          simp only [closestUpdate, specStep]
          split <;> rfl
      simp [scanAcc, hp, hstep, List.filterMap_cons, distPair, ih]

theorem scanAcc_none (pref : SDate) :
    ∀ ds : List String,
      scanAcc pref none ds =
        (match ds.filterMap (distPair pref) with
         | [] => none
         | x :: xs => some (xs.foldl specStep x)) := by
  intro ds
  induction ds with
  | nil => rfl
  | cons l rest ih =>
    cases hp : parseLabel l with
    | none => simp [scanAcc, hp, List.filterMap_cons, distPair, ih]
    | some dt =>
      have h1 : closestUpdate pref none l dt = some (l, dateDist dt pref) := rfl
      simp [scanAcc, hp, h1, List.filterMap_cons, distPair, scanAcc_some]

/-- With no exact match anywhere, the loop result is determined by the
accumulator the scan produces. -/
theorem matchGo_no_exact (dates : List String) (pref : SDate) :
    ∀ ds acc, (∀ l ∈ ds, parseLabel l ≠ some pref) →
      matchGo dates pref ds acc =
        (match scanAcc pref acc ds with
         | some (c, _) =>
           (("CLOSEST AVAILABLE: ") ++ c) :: dates.filter (fun d => d ≠ c)
         | none => dates) := by
  intro ds
  induction ds with
  | nil => intro acc _; rfl
  | cons l rest ih =>
    intro acc h
    cases hp : parseLabel l with
    | none =>
      have h2 := ih acc (fun x hx => h x (List.mem_cons_of_mem _ hx))
      simpa [matchGo, scanAcc, hp] using h2
    | some dt =>
      have hne : dt ≠ pref := by
        intro e
        exact h l (List.mem_cons_self l rest) (by rw [hp, e])
      have h2 := ih (closestUpdate pref acc l dt)
        (fun x hx => h x (List.mem_cons_of_mem _ hx))
      simpa [matchGo, scanAcc, hp, hne] using h2

theorem matchGo_ne_nil (dates : List String) (pref : SDate) (h : dates ≠ []) :
    ∀ ds acc, matchGo dates pref ds acc ≠ [] := by
  intro ds
  induction ds with
  | nil =>
    intro acc
    cases acc with
    | none => simpa [matchGo] using h
    | some x => cases x with | mk c m => simp [matchGo]
  | cons l rest ih =>
    intro acc
    cases hp : parseLabel l with
    | none => simpa [matchGo, hp] using ih acc
    | some dt =>
      by_cases hdt : dt = pref
      · simp [matchGo, hp, hdt]
      · simpa [matchGo, hp, hdt] using ih (closestUpdate pref acc l dt)

/-- The preferred-date matching never turns a non-empty label list into an
empty one. -/
theorem selectDates_ne_nil (dates : List String) (p : Option String)
    (h : dates ≠ []) : selectDates dates p ≠ [] := by
  cases p with
  | none => simpa [selectDates] using h
  | some q =>
    cases hq : strptimeSlash q with
    | none => simpa [selectDates, hq] using h
    | some pref => simpa [selectDates, hq] using matchGo_ne_nil dates pref h dates none

/-! ## Claim C5 -/

/-- C5 (confirmed): for every preferred date `P` (given in the
`"%d/%m/%Y"` form the code parses it with) and every list of raw slot
labels containing a label that parses to exactly `P`, the slot matcher
short-circuits and returns a single-element list whose only element
carries the `SELECTED` tag, and no element of the result carries the
`CLOSEST AVAILABLE` tag. -/
theorem exact_match_returns_selected (p : String) (pref : SDate)
    (dates : List String) (hp : strptimeSlash p = some pref)
    (hex : ∃ l ∈ dates, parseLabel l = some pref) :
    ∃ l, parseLabel l = some pref ∧
      selectDates dates (some p) = [("SELECTED: ") ++ l] ∧
      ∀ m ∈ selectDates dates (some p), ∀ c, m ≠ ("CLOSEST AVAILABLE: ") ++ c := by
  obtain ⟨l, hlp, heq⟩ := matchGo_selected dates pref dates none hex
  have hsel : selectDates dates (some p) = [("SELECTED: ") ++ l] := by
    simp [selectDates, hp, heq]
  refine ⟨l, hlp, hsel, ?_⟩
  intro m hm c
  rw [hsel] at hm
  have hm2 := List.mem_singleton.mp hm
  subst hm2
  exact selected_ne_closest l c

/-- Witness for C5 at `P = 15/04/2025`,
labels `["20/04/2025", "15/04/2025"]`. -/
theorem exact_match_returns_selected_witness :
    ∃ l, parseLabel l = some ⟨15, 4, 2025⟩ ∧
      selectDates [("20/04/2025"), ("15/04/2025")] (some ("15/04/2025")) =
        [("SELECTED: ") ++ l] ∧
      ∀ m ∈ selectDates [("20/04/2025"), ("15/04/2025")] (some ("15/04/2025")),
        ∀ c, m ≠ ("CLOSEST AVAILABLE: ") ++ c :=
  exact_match_returns_selected ("15/04/2025") ⟨15, 4, 2025⟩
    [("20/04/2025"), ("15/04/2025")] (by decide)
    ⟨("15/04/2025"), by decide, by decide⟩

/-! ## Claim C6 -/

/-- C6 as amended: for every preferred date `P` and every list of raw
labels none of which parses to exactly `P` but **at least one of which is
parseable**, the matcher tags exactly one label `CLOSEST AVAILABLE`,
namely the first-encountered parseable label of minimum absolute
day-distance to `P` (the spec-worded `specClosestLabel`), and returns the
labels different from the tagged one alongside it.  The claim as frozen
also quantifies over lists with no parseable label at all, where the code
returns the labels unchanged with no tag (see the counterexample). -/
theorem closest_match_first_encounter (p : String) (pref : SDate)
    (dates : List String) (hp : strptimeSlash p = some pref)
    (hnoexact : ∀ l ∈ dates, parseLabel l ≠ some pref)
    (hparse : ∃ l ∈ dates, (parseLabel l).isSome) :
    ∃ c, specClosestLabel dates pref = some c ∧
      selectDates dates (some p) =
        (("CLOSEST AVAILABLE: ") ++ c) :: dates.filter (fun d => d ≠ c) := by
  have hgo := matchGo_no_exact dates pref dates none hnoexact
  rw [scanAcc_none] at hgo
  cases hps : dates.filterMap (distPair pref) with
  | nil =>
    exfalso
    obtain ⟨l, hl, hsome⟩ := hparse
    have h0 := List.filterMap_eq_nil_iff.mp hps l hl
    rw [distPair] at h0
    cases hpl : parseLabel l with
    | none => rw [hpl] at hsome; simp at hsome
    | some dt => rw [hpl] at h0; simp at h0
  | cons x xs =>
    refine ⟨(xs.foldl specStep x).1, ?_, ?_⟩
    · simp [specClosestLabel, hps]
    · rw [hps] at hgo
      simp only [selectDates, hp]
      simpa using hgo

/-- Witness for C6 at the spec scenario `P = 15/04/2025`,
labels `["10/04/2025", "20/04/2025"]`: the tagged element is
`10/04/2025` (distance 5 for both labels, first-encountered wins). -/
theorem closest_match_first_encounter_witness :
    (∃ c, specClosestLabel [("10/04/2025"), ("20/04/2025")] ⟨15, 4, 2025⟩ = some c ∧
      selectDates [("10/04/2025"), ("20/04/2025")] (some ("15/04/2025")) =
        (("CLOSEST AVAILABLE: ") ++ c) ::
          [("10/04/2025"), ("20/04/2025")].filter (fun d => d ≠ c)) ∧
    selectDates [("10/04/2025"), ("20/04/2025")] (some ("15/04/2025")) =
      [("CLOSEST AVAILABLE: 10/04/2025"), ("20/04/2025")] :=
  ⟨closest_match_first_encounter ("15/04/2025") ⟨15, 4, 2025⟩
      [("10/04/2025"), ("20/04/2025")] (by decide) (by decide)
      ⟨("10/04/2025"), by decide, by decide⟩,
    by decide⟩

/-- Counterexample to C6 as frozen: the non-empty label list `["foo"]`
contains no label parsing to `15/04/2025`, yet the matcher returns the
list unchanged — no element carries the `CLOSEST AVAILABLE` tag, while the
claim demands exactly one tagged label for every such list. -/
theorem unparseable_labels_no_closest_tag :
    selectDates [("foo")] (some ("15/04/2025")) = [("foo")] ∧
    parseLabel ("foo") = none ∧
    ∀ m ∈ selectDates [("foo")] (some ("15/04/2025")),
      ∀ c, m ≠ ("CLOSEST AVAILABLE: ") ++ c := by
  refine ⟨by decide, by decide, ?_⟩
  intro m hm c
  have hres : selectDates [("foo")] (some ("15/04/2025")) = [("foo")] := by decide
  rw [hres] at hm
  have hm2 := List.mem_singleton.mp hm
  subst hm2
  intro h
  have h2 := congrArg String.length h
  rw [String.length_append] at h2
  have e1 : ("foo").length = 3 := rfl
  have e2 : ("CLOSEST AVAILABLE: ").length = 19 := rfl
  rw [e1, e2] at h2
  omega

/-! ## Claim C1 -/

/-- C1 as amended: the slot-extraction step returns the confirmed-empty
result (`[]`) exactly when a no-availability phrase occurs in the page
content **or** when no slot elements are collected at all — in particular,
absence of every signal together with absence of slot elements still
yields the empty result, not an inconclusive one.  The attempt-level
inconclusive outcome (`None`) arises only upstream, in
`handle_menores_service`, and only from a missing Continue button or an
unfindable service option. -/
theorem extract_empty_characterization :
    (∀ st p, extract_dates st p = [] ↔
      (contentSignal st = true ∨ collectedDates st = [])) ∧
    (∀ f p, handle_menores_service f p = none ↔
      (f.continueButton = false ∨
        (f.noHoursSelectorHit = false ∧ contentNoHoras f.page.content = false ∧
          f.optionFound = false))) := by
  constructor
  · intro st p
    by_cases h1 : contentSignal st
    · simp [extract_dates, collectedDates, h1]
    · by_cases h2 : st.selectorDates.isEmpty
      · by_cases h3 : st.calendarPresent
        · by_cases h4 : st.calendarDates.isEmpty
          · simp_all [extract_dates, collectedDates, List.isEmpty_iff]
          · have h5 : st.calendarDates ≠ [] := by
              simpa [List.isEmpty_iff] using h4
            simp_all [extract_dates, collectedDates, List.isEmpty_iff,
              selectDates_ne_nil st.calendarDates p h5]
        · simp_all [extract_dates, collectedDates, List.isEmpty_iff]
      · have h5 : st.selectorDates ≠ [] := by
          simpa [List.isEmpty_iff] using h2
        simp_all [extract_dates, collectedDates, List.isEmpty_iff,
          selectDates_ne_nil st.selectorDates p h5]
  · intro f p
    by_cases h1 : f.continueButton
    · by_cases h2 : f.noHoursSelectorHit
      · simp_all [handle_menores_service]
      · by_cases h3 : contentNoHoras f.page.content
        · simp_all [handle_menores_service]
        · by_cases h4 : f.optionFound
          · by_cases h5 : f.noHoursAfterOption
            · simp_all [handle_menores_service]
            · simp_all [handle_menores_service]
          · simp_all [handle_menores_service]
    · simp_all [handle_menores_service]

/-- A fully blank page: no no-availability phrase, no slot elements, no
calendar, no text-heuristic match, and none of the menores no-hours
selectors resolving. -/
def blankPage : PageState :=
  { content := (""), bodyText := (""), selectorDates := [],
    calendarPresent := false, calendarDates := [] }

/-- A menores attempt that navigates cleanly to a blank availability
view. -/
def blankFlow : MenoresFlow :=
  { continueButton := true, noHoursSelectorHit := false, optionFound := true,
    noHoursAfterOption := false, page := blankPage }

/-- Counterexample to C1 as frozen: on a page state where no positive
signal fires (no no-availability text, no text-heuristic match, no
no-hours selector hit) and no slot elements are found, the attempt result
is the confirmed-empty `some []` — not the inconclusive `none` the claim
requires. -/
theorem extract_empty_without_signal :
    handle_menores_service blankFlow none = some [] ∧
    extract_dates blankPage none = [] ∧
    contentSignal blankPage = false ∧
    textHeuristic blankPage = false ∧
    contentNoHoras blankPage.content = false ∧
    blankPage.selectorDates = [] ∧
    blankPage.calendarPresent = false ∧
    blankFlow.noHoursSelectorHit = false ∧
    blankFlow.noHoursAfterOption = false := by
  refine ⟨by decide, by decide, by decide, by decide, by decide, rfl, rfl, rfl, rfl⟩

/-! ## Claim C2 -/

/-- Every attempt ending in a caught timeout or recoverable error leaves
the loop without a result. -/
theorem runAttempts_all_recoverable (events : List AttemptEvent)
    (h : ∀ e ∈ events, e = AttemptEvent.timeout ∨ e = AttemptEvent.navError) :
    runAttempts events = none := by
  induction events with
  | nil => rfl
  | cons e rest ih =>
    rcases h e (List.mem_cons_self e rest) with rfl | rfl
    · exact ih (fun x hx => h x (List.mem_cons_of_mem _ hx))
    · exact ih (fun x hx => h x (List.mem_cons_of_mem _ hx))

/-- C2 as amended: a check session in which every attempt ends in a
timeout or recoverable error returns the inconclusive `None`, and on that
outcome the scheduler tick neither deregisters the poller nor deletes the
persisted job and sends **nothing at all** — no message to the end user
and, contrary to the claim as frozen, no report to the monitoring channel
either (monitoring reports are filed only when the tick body itself
raises). -/
theorem session_unknown_keeps_job_active (events : List AttemptEvent)
    (h : ∀ e ∈ events, e = AttemptEvent.timeout ∨ e = AttemptEvent.navError) :
    check_appointments_impl true events = none ∧
    ∀ uid job, check_dates_continuously uid job false (TickEvent.outcome none) =
      ⟨false, false, [], []⟩ := by
  refine ⟨?_, fun uid job => rfl⟩
  simpa [check_appointments_impl] using runAttempts_all_recoverable events h

/-- Witness for C2 at a session of five timed-out attempts (the default
`max_attempts`). -/
theorem session_unknown_keeps_job_active_witness :
    check_appointments_impl true
      [AttemptEvent.timeout, AttemptEvent.timeout, AttemptEvent.timeout,
        AttemptEvent.timeout, AttemptEvent.timeout] = none ∧
    check_dates_continuously 1 ("Maria, 1 HIJO") false (TickEvent.outcome none) =
      ⟨false, false, [], []⟩ :=
  ⟨(session_unknown_keeps_job_active
      [AttemptEvent.timeout, AttemptEvent.timeout, AttemptEvent.timeout,
        AttemptEvent.timeout, AttemptEvent.timeout] (by decide)).1,
    (session_unknown_keeps_job_active
      [AttemptEvent.timeout, AttemptEvent.timeout, AttemptEvent.timeout,
        AttemptEvent.timeout, AttemptEvent.timeout] (by decide)).2
      1 ("Maria, 1 HIJO")⟩

/-- Counterexample to C2 as frozen: the session of five timeouts does end
in the unknown outcome, but the scheduler tick for that outcome files no
monitoring report at all (and also sends the user nothing), whereas the
claim asserts a structured error report goes to the external monitoring
channel. -/
theorem unknown_outcome_no_monitor_report :
    check_appointments_impl true
      [AttemptEvent.timeout, AttemptEvent.timeout, AttemptEvent.timeout,
        AttemptEvent.timeout, AttemptEvent.timeout] = none ∧
    (check_dates_continuously 1 ("Maria, 1 HIJO") false
      (TickEvent.outcome none)).monitorReports = [] ∧
    (check_dates_continuously 1 ("Maria, 1 HIJO") false
      (TickEvent.outcome none)).userMessages = [] := by
  refine ⟨rfl, rfl, rfl⟩

/-! ## Claim C4 -/

/-- C4 as amended: **every** attempt of a check session — including the
first — draws a fresh Tor identity and runs behind the Tor proxy; no
attempt is direct.  `get_proxy` yields no identity only when Tor
initialisation fails, in which case the session runs no attempt at all. -/
theorem all_attempts_use_tor :
    ∀ n, attemptProxies true n = List.replicate n (some torProxy) ∧
      attemptProxies false n = [] :=
  fun n => ⟨rfl, rfl⟩

/-- Counterexample to C4 as frozen: in a five-attempt session with Tor
ready, the first attempt's identity is the Tor proxy, not the direct
(`none`) connection the claim requires. -/
theorem first_attempt_not_direct :
    (attemptProxies true 5).head? = some (some torProxy) ∧
    some torProxy ≠ (none : Option Proxy) := by
  refine ⟨rfl, by decide⟩

/-! ## Claim C7 -/

/-- C7 as amended: a timed-out interactive check yields only a generic
message with no diagnostic payload, and the outer handler sends the user a
generic retry-later text while filing the full report with the monitoring
channel — but an exception caught inside the single-appointment check
branch echoes its text straight into the user-facing message. -/
theorem scraping_failure_message_routing :
    ∀ (uid : Nat) (job e : String),
      handle_check_single job SingleCheckEvent.timedOut =
        [("Checking appointment for ") ++ job ++ ("..."),
          ("Check timed out for ") ++ job ++ (".")] ∧
      handle_check_single job (SingleCheckEvent.raised e) =
        [("Checking appointment for ") ++ job ++ ("..."),
          ("Error checking ") ++ job ++ (": ") ++ e] ∧
      handle_check_outer_user =
        ("I encountered an issue while checking appointments. Please try again later.") ∧
      handle_check_outer_reports uid job e =
        [⟨uid, job, e, ("handle_check_appointments")⟩] :=
  fun uid job e => ⟨rfl, rfl, rfl, rfl⟩

/-- Counterexample to C7 as frozen: an exception with text `boom` raised
during the interactive check of job `J` produces a user-facing message
that contains the exception text and is not the generic retry-later
message — diagnostic detail does reach the end user. -/
theorem exception_text_reaches_user :
    handle_check_single ("J") (SingleCheckEvent.raised ("boom")) =
      [("Checking appointment for J..."), ("Error checking J: boom")] ∧
    strContains ("Error checking J: boom") ("boom") = true ∧
    ("Error checking J: boom") ≠ handle_check_outer_user := by
  refine ⟨by decide, by decide, by decide⟩

/-! ## Claim C8 -/

/-- At most one registered poller per name. -/
def QueueInv (q : List String) : Prop := ∀ n, q.count n ≤ 1

theorem appendOne_inv (q : List String) (n : String) (h : QueueInv q)
    (hn : n ∉ q) : QueueInv (q ++ [n]) := by
  intro m
  rw [List.count_append]
  by_cases hm : m = n
  · subst hm
    have h0 : q.count m = 0 := List.count_eq_zero.mpr hn
    simp [h0]
  · have h1 : List.count m [n] = 0 := by
      simp [List.count_singleton]
      exact fun e => hm e.symm
    have h2 := h m
    omega

theorem reconcile_fold_inv (db : List (Nat × String)) :
    ∀ q, QueueInv q →
      QueueInv (db.foldl
        (fun q j =>
          let n := pollerName j.1 j.2
          if n ∈ q then q else q ++ [n]) q) := by
  induction db with
  | nil => intro q h; exact h
  | cons j rest ih =>
    intro q h
    rw [List.foldl_cons]
    by_cases hm : pollerName j.1 j.2 ∈ q
    · simpa [hm] using ih q h
    · simpa [hm] using ih (q ++ [pollerName j.1 j.2]) (appendOne_inv q _ h hm)

theorem count_filter_ne_self (q : List String) (n : String) :
    (q.filter (fun x => x ≠ n)).count n = 0 := by
  rw [List.count_eq_zero]
  intro hmem
  have h2 := (List.mem_filter.mp hmem).2
  simp at h2

theorem filter_count_le (p : String → Bool) (q : List String) (m : String) :
    (q.filter p).count m ≤ q.count m :=
  List.Sublist.count_le (List.filter_sublist q) m

/-- C8 as amended: the periodic reconciliation skips every key that
already has a registered poller and the direct-start path deregisters the
key before registering, so these two paths preserve the
at-most-one-poller-per-key invariant.  The resume and startup-recovery
paths register unconditionally, and a duplicate poller is reachable (see
the counterexample), so the frozen claim's universal invariant fails. -/
theorem reconcile_directstart_preserve_unique (s : Sched) (uid : Nat)
    (job : String) (h : QueueInv s.queue) :
    QueueInv (reconcileStep s).queue ∧
    QueueInv (directStartStep uid job s).queue := by
  constructor
  · exact reconcile_fold_inv s.db s.queue h
  · intro m
    show ((s.queue.filter (fun x => x ≠ pollerName uid job)) ++
      [pollerName uid job]).count m ≤ 1
    rw [List.count_append]
    by_cases hm : m = pollerName uid job
    · subst hm
      have h0 := count_filter_ne_self s.queue (pollerName uid job)
      simp only [ne_eq, decide_not] at h0
      simp [h0]
    · have h1 : List.count m [pollerName uid job] = 0 := by
        simp [List.count_singleton]
        exact fun e => hm e.symm
      have h2 := filter_count_le (fun x => decide (x ≠ pollerName uid job)) s.queue m
      have h3 := h m
      omega

/-- Witness for C8 on the empty queue with one active job. -/
theorem reconcile_directstart_preserve_unique_witness :
    QueueInv (reconcileStep ⟨[], [(1, ("J"))], []⟩).queue ∧
    QueueInv (directStartStep 1 ("J") ⟨[], [(1, ("J"))], []⟩).queue :=
  reconcile_directstart_preserve_unique ⟨[], [(1, ("J"))], []⟩ 1 ("J")
    (fun n => by simp)

/-- One active job `(1, "J")`, nothing scheduled yet. -/
def c8start : Sched := ⟨[], [(1, ("J"))], []⟩

/-- The state after: reconciliation schedules the job's poller; an
interactive handler pauses the owner's searches; reconciliation runs again
during the paused window and re-schedules the poller; the handler
resumes. -/
def c8dup : Sched :=
  resumeStep (reconcileStep (pauseStep 1 (reconcileStep c8start)))

/-- Counterexample to C8 as frozen: from a state with one active job, the
interleaving reconcile → pause → reconcile → resume is reachable and ends
with **two** registered pollers named `check_dates_1_J` — the resume path
re-registers a poller for a key that reconciliation already re-scheduled
during the paused window. -/
theorem duplicate_poller_reachable :
    SchedReachable c8start c8dup ∧
    c8dup.queue.count (pollerName 1 ("J")) = 2 := by
  constructor
  · refine Relation.ReflTransGen.tail (Relation.ReflTransGen.tail
      (Relation.ReflTransGen.tail
        (Relation.ReflTransGen.single (SchedStep.reconcile c8start))
        (SchedStep.pauseOwner 1 (reconcileStep c8start) rfl))
      (SchedStep.reconcile (pauseStep 1 (reconcileStep c8start))))
      (SchedStep.resumeHeld (reconcileStep (pauseStep 1 (reconcileStep c8start))))
  · decide

/-! ## Claim C9 -/

/-- C9 as amended: `pause` deregisters and returns exactly the owner's
pollers, and `resume` re-registers exactly the list it is given — with
**no** skipping of meanwhile cancelled or resolved jobs.  Only the
cancellation handler itself filters the job it cancelled out of its own
paused list before resuming, which restores exactly the pre-pause set
minus that job; a job cancelled through any other path during a paused
window is re-registered by resume (see the counterexample). -/
theorem pause_resume_exact_sets :
    ∀ (uid : Nat) (job : String) (s : Sched),
      (pauseStep uid s).held =
        s.queue.filter (fun n => strStartsWith n (pausePrefix uid)) ∧
      (pauseStep uid s).queue =
        s.queue.filter (fun n => ¬ strStartsWith n (pausePrefix uid)) ∧
      (resumeStep s).queue = s.queue ++ s.held ∧
      (handleCancelSingle uid job s).queue.filter
          (fun n => strStartsWith n (pausePrefix uid)) =
        (s.queue.filter (fun n => strStartsWith n (pausePrefix uid))).filter
          (fun m => m ≠ pollerName uid job) := by
  intro uid job s
  refine ⟨rfl, rfl, rfl, ?_⟩
  show ((((s.queue.filter (fun n => ¬ strStartsWith n (pausePrefix uid))).filter
      (fun m => m ≠ pollerName uid job)) ++
      ((s.queue.filter (fun n => strStartsWith n (pausePrefix uid))).filter
      (fun m => m ≠ pollerName uid job))).filter
      (fun n => strStartsWith n (pausePrefix uid))) = _
  rw [List.filter_append]
  have h1 : ((s.queue.filter (fun n => ¬ strStartsWith n (pausePrefix uid))).filter
      (fun m => m ≠ pollerName uid job)).filter
      (fun n => strStartsWith n (pausePrefix uid)) = [] := by
    rw [List.filter_eq_nil_iff]
    intro a ha
    have h2 := (List.mem_filter.mp (List.mem_of_mem_filter ha)).2
    simp at h2
    simp [h2]
  have h2 : ((s.queue.filter (fun n => strStartsWith n (pausePrefix uid))).filter
      (fun m => m ≠ pollerName uid job)).filter
      (fun n => strStartsWith n (pausePrefix uid)) =
      (s.queue.filter (fun n => strStartsWith n (pausePrefix uid))).filter
      (fun m => m ≠ pollerName uid job) := by
    rw [List.filter_eq_self]
    intro a ha
    exact (List.mem_filter.mp (List.mem_of_mem_filter ha)).2
  rw [h1, h2, List.nil_append]

/-- One scheduled poller for the single active job `(1, "J")`. -/
def c9start : Sched := ⟨[pollerName 1 ("J")], [(1, ("J"))], []⟩

/-- The state after: an interactive check pauses the owner's searches; the
user cancels job `J` through the cancellation handler during the paused
window (which finds no poller left to remove); the check handler
resumes. -/
def c9end : Sched :=
  resumeStep (handleCancelSingle 1 ("J") (pauseStep 1 c9start))

/-- Counterexample to C9 as frozen: job `(1, "J")` is cancelled during the
paused window (the final persisted-job table is empty), yet resume
restores its poller — the restored job-key set is `{check_dates_1_J}`
instead of the pre-pause set minus the cancelled job, which is empty. -/
theorem cancelled_job_poller_restored :
    SchedReachable c9start c9end ∧
    c9end.queue = [pollerName 1 ("J")] ∧
    c9end.db = [] := by
  refine ⟨?_, by decide, by decide⟩
  exact Relation.ReflTransGen.tail (Relation.ReflTransGen.tail
    (Relation.ReflTransGen.single (SchedStep.pauseOwner 1 c9start rfl))
    (SchedStep.cancelJob 1 ("J") (pauseStep 1 c9start)))
    (SchedStep.resumeHeld (handleCancelSingle 1 ("J") (pauseStep 1 c9start)))

/-! ## Claim C3 -/

/-- C3 (code bug): `handle_option` calls
`add_user_job(user_id, job_name, service_type)` with three positional
arguments (`main.py:350`) while `bot_users.add_user_job` takes two
(`bot_users.py:90`), so every job creation with a fresh name raises
`TypeError` before anything is persisted — the claimed `pending_form`
persistence never happens.  The second half of the claim does hold:
`save_form_submission` flips the `(owner, job_name)` status to active. -/
theorem add_user_job_call_crashes :
    handle_option_create [] 1 ("Maria, 1 HIJO") =
      (CreateOutcome.crashed PyError.typeError, []) ∧
    callAddUserJob [] 1 ("Maria, 1 HIJO") = Except.error PyError.typeError ∧
    handle_option_addCall_argCount ≠ add_user_job_paramCount ∧
    save_form_submission [⟨1, ("Maria, 1 HIJO"), JobStatus.pending_form⟩] 1
        ("Maria, 1 HIJO") =
      [⟨1, ("Maria, 1 HIJO"), JobStatus.active⟩] := by
  refine ⟨rfl, rfl, by decide, rfl⟩

/-! ## Claim C10 -/

/-- C10 (confirmed): a creation request by a user who already has 15 or
more jobs is rejected (by the duplicate-name check or the cap check,
whichever fires first) with the jobs table untouched; and a
case-insensitively duplicate name is rejected with the table untouched —
both rejections happen before the `add_user_job` call, hence before any
persistence write. -/
theorem creation_cap_and_duplicate_rejection :
    (∀ (db : List JobRow) (uid : Nat) (name : String),
      15 ≤ (get_user_jobs db uid).length →
        ((handle_option_create db uid name).1 = CreateOutcome.rejectedDuplicate ∨
          (handle_option_create db uid name).1 = CreateOutcome.rejectedCap) ∧
        (handle_option_create db uid name).2 = db) ∧
    (∀ (db : List JobRow) (uid : Nat) (name : String),
      dupName (get_user_jobs db uid) name = true →
        (handle_option_create db uid name).1 = CreateOutcome.rejectedDuplicate ∧
        (handle_option_create db uid name).2 = db) := by
  constructor
  · intro db uid name hcap
    by_cases hdup : dupName (get_user_jobs db uid) name
    · constructor
      · left
        simp [handle_option_create, hdup]
      · simp [handle_option_create, hdup]
    · constructor
      · right
        simp [handle_option_create, hdup, hcap]
      · simp [handle_option_create, hdup, hcap]
  · intro db uid name hdup
    constructor
    · simp [handle_option_create, hdup]
    · simp [handle_option_create, hdup]

/-- Fifteen jobs already held by user 1. -/
def capDb : List JobRow :=
  (List.range 15).map (fun i => ⟨1, ("job") ++ toString i, JobStatus.active⟩)

/-- Witness for C10: a sixteenth, fresh name is rejected with the table
unchanged, and the name `MARIA` duplicating the existing `Maria` is
rejected with the table unchanged. -/
theorem creation_cap_and_duplicate_rejection_witness :
    (((handle_option_create capDb 1 ("fresh")).1 =
        CreateOutcome.rejectedDuplicate ∨
      (handle_option_create capDb 1 ("fresh")).1 = CreateOutcome.rejectedCap) ∧
      (handle_option_create capDb 1 ("fresh")).2 = capDb) ∧
    ((handle_option_create [⟨1, ("Maria"), JobStatus.pending_form⟩] 1
        ("MARIA")).1 = CreateOutcome.rejectedDuplicate ∧
      (handle_option_create [⟨1, ("Maria"), JobStatus.pending_form⟩] 1
        ("MARIA")).2 = [⟨1, ("Maria"), JobStatus.pending_form⟩]) :=
  ⟨creation_cap_and_duplicate_rejection.1 capDb 1 ("fresh") (by decide),
    creation_cap_and_duplicate_rejection.2
      [⟨1, ("Maria"), JobStatus.pending_form⟩] 1 ("MARIA") (by decide)⟩

end TelegramBot
